import Mathlib

/-!
Shallow embedding of `simulator/pkg/nodenumber/plugin.go` (the NodeNumber
scheduler plugin) and verification of its specified properties.

Modelling conventions:
* Go `float64` data values are modelled as exact rationals (every finite
  float64 value is a rational number); float64 arithmetic inside the scoring
  formula is idealized as exact real arithmetic, except where IEEE-754
  produces a non-real value (±Inf, NaN) — those spots are modelled
  explicitly, see `scoreArith`.
* Fallible operations return `Option`/`Except`; a `none` result of an
  operation that Go does not guard models a run-time panic or an
  implementation-defined result (out-of-range slice index, NaN-to-int64
  conversion).
* `framework.Handle`/snapshot access is modelled by passing the snapshot
  node list explicitly; the HTTP transport and `json.Unmarshal` are modelled
  by an explicit outcome value and an abstract decoder function.
-/

/-- Go struct `LocationData` (plugin.go): one telemetry record.
Numeric fields are `float64` in Go, modelled as exact rationals. -/
structure LocationData where
  Time : String
  BatteryCharge : ℚ
  RenewableOutput : ℚ
  PrimaryLoad : ℚ
  UnmetLoad : ℚ
  Location : String
  deriving DecidableEq

/-- Go `*framework.Status`; `none` models the nil pointer, which the
framework interprets as Success (a non-error status). -/
abbrev GoStatus := Option String

/-- Go struct `NodeNumber` (the plugin receiver). The `fh framework.Handle`
field is modelled by passing the node snapshot list to `Score` explicitly;
only the `reverse` configuration field is kept. -/
structure NodeNumber where
  reverse : Bool

/-- Go struct `preScoreState`: per-cycle state computed at PreScore. -/
structure preScoreState where
  podSuffixNumber : ℤ
  deriving DecidableEq

/-- The per-cycle `framework.CycleState`, restricted to the single key
`preScoreStateKey` this plugin uses: `none` when nothing was written. -/
abbrev CycleState := Option preScoreState

/-- A pod as far as this plugin reads it: only `pod.Name`. -/
structure Pod where
  name : String

/-- A node from the snapshot as far as this plugin reads it:
`n.Node().Name` and `n.Node().Labels`. Go map reads return the zero value
`""` for an absent key, so labels are modelled as a total function. -/
structure NodeInfo where
  name : String
  labels : String → String

/-- Go `math.Round` on a real value: round to nearest, halves away from
zero (the result stays a float64 in Go, hence `ℝ → ℝ`). -/
noncomputable def goRound (x : ℝ) : ℝ :=
  if 0 ≤ x then ((⌊x + 1/2⌋ : ℤ) : ℝ) else ((-⌊-x + 1/2⌋ : ℤ) : ℝ)

/-- Go conversion `int64(x)` from float64: truncation toward zero
(for values representable in int64; the non-representable/NaN case is
handled at the call site, see `scoreArith`). -/
noncomputable def goTrunc (x : ℝ) : ℤ :=
  if 0 ≤ x then ⌊x⌋ else ⌈x⌉

/-- Go `slices.IndexFunc`: index of the first element satisfying `p`,
or `-1` when none does. -/
def goIndexFunc {α : Type} (l : List α) (p : α → Bool) : ℤ :=
  match l.findIdx? p with
  | some i => (i : ℤ)
  | none => -1

/-- Go slice indexing `l[i]` with an `int` index: defined only for
`0 ≤ i < len(l)`; `none` models the out-of-range run-time panic. -/
def goSliceGet {α : Type} (l : List α) (i : ℤ) : Option α :=
  if h : 0 ≤ i ∧ i.toNat < l.length then some (l.get ⟨i.toNat, h.2⟩) else none

/-- Go `GetLocationData` (plugin.go): `idx := slices.IndexFunc(...)` then
`return data[idx]` — the indexing panics (`none`) when no record matches. -/
def GetLocationData (loc : String) (data : List LocationData) : Option LocationData :=
  goSliceGet data (goIndexFunc data (fun d => d.Location == loc))

/-- Go `GetLocationBatteryCharge` (plugin.go): same unguarded pattern. -/
def GetLocationBatteryCharge (loc : String) (data : List LocationData) : Option ℚ :=
  (goSliceGet data (goIndexFunc data (fun d => d.Location == loc))).map
    (fun d => d.BatteryCharge)

/-- Outcome of the HTTP layer inside `GetData`: the `http.Get` call fails,
the `io.ReadAll` of the body fails, or a body is obtained. -/
inductive FetchWorld where
  | getErr (e : String)
  | readErr (e : String)
  | responds (body : String)
  deriving DecidableEq

/-- Go `GetData` (plugin.go): one HTTP GET, read the body, then
`json.Unmarshal` into `[]LocationData`. The transport outcome is the
explicit `world` argument and `unmarshal` abstracts `encoding/json`
decoding of the body (`Except.error` = non-nil `err`). -/
def GetData (unmarshal : String → Except String (List LocationData))
    (world : FetchWorld) : Except String (List LocationData) :=
  match world with
  | .getErr e => .error e
  | .readErr e => .error e
  | .responds body =>
      match unmarshal body with
      | .error e => .error e
      | .ok data => .ok data

/-- The scoring formula of `Score` (plugin.go, lines 132–136) for a matched
record, in the case `PrimaryLoad ≠ 0` where the float64 pipeline computes
real numbers:
`renewDiff := (RenewableOutput - PrimaryLoad) / PrimaryLoad`,
`renewScore := 100 / (1 + E^(-0.05*100*renewDiff))`
(`math.Pow(math.E, x) = e^x`), returned as
`int64(math.Round(renewScore)*0.5 + (math.Round(BatteryCharge)-20)*0.5)`. -/
noncomputable def scoreOf (ld : LocationData) : ℤ :=
  let renewDiff : ℝ :=
    ((ld.RenewableOutput : ℝ) - (ld.PrimaryLoad : ℝ)) / (ld.PrimaryLoad : ℝ)
  let renewScore : ℝ := 100 / (1 + Real.exp (-0.05 * 100 * renewDiff))
  goTrunc (goRound renewScore * 0.5 + (goRound (ld.BatteryCharge : ℝ) - 20) * 0.5)

/-- The arithmetic tail of `Score` including the `PrimaryLoad = 0` cases,
which Go does not guard: there the float64 division yields `+Inf` (for
`RenewableOutput > 0`), `-Inf` (for `RenewableOutput < 0`) or `NaN` (for
`RenewableOutput = 0`). Following IEEE-754 and Go `math`:
`Pow(E, -Inf) = 0` so `renewScore = 100`; `Pow(E, +Inf) = +Inf` so
`renewScore = 0`; `NaN` propagates through `math.Round` and multiplication
into the `int64` conversion, whose result the Go spec leaves
implementation-dependent — modelled as `none`. -/
noncomputable def scoreArith (ld : LocationData) : Option ℤ :=
  if ld.PrimaryLoad = 0 then
    if 0 < ld.RenewableOutput then
      some (goTrunc (goRound 100 * 0.5 + (goRound (ld.BatteryCharge : ℝ) - 20) * 0.5))
    else if ld.RenewableOutput < 0 then
      some (goTrunc (goRound 0 * 0.5 + (goRound (ld.BatteryCharge : ℝ) - 20) * 0.5))
    else none
  else some (scoreOf ld)

/-- Go `NodeNumber.Score` (plugin.go, lines 117–138):
call `GetData`; on error return `(22, nil)`; otherwise look up the node by
name in the snapshot with `slices.IndexFunc` and index into the list
(panic when absent, modelled `none`), read its `location` label, call
`GetLocationData` (panic when no record matches), then compute the score.
The pod and cycle state arguments are received but never read, and the
returned status is always nil. An overall `none` models a run-time panic
or implementation-defined result inside the call. -/
noncomputable def Score (pl : NodeNumber) (state : CycleState) (pod : Pod)
    (unmarshal : String → Except String (List LocationData)) (world : FetchWorld)
    (nodeList : List NodeInfo) (nodeName : String) : Option (ℤ × GoStatus) :=
  match GetData unmarshal world with
  | .error _ => some (22, none)
  | .ok apiData =>
      match goSliceGet nodeList (goIndexFunc nodeList (fun n => n.name == nodeName)) with
      | none => none
      | some ni =>
          let location := ni.labels "location"
          match GetLocationData location apiData with
          | none => none
          | some ld => (scoreArith ld).map (fun s => (s, none))

/-- Go `NodeNumber.PreScore` (plugin.go, lines 68–84):
`podNameLastChar := pod.Name[len(pod.Name)-1:]` — for an empty name the
slice bound is negative and Go panics (modelled `none`). Otherwise
`strconv.Atoi` on the one-byte suffix succeeds exactly when that byte is an
ASCII decimal digit (a trailing byte of a multi-byte UTF-8 character is
never an ASCII digit, so taking the last character is equivalent); on
success the digit is written to the cycle state, otherwise nothing is
written, and in both cases the returned status is nil (success). -/
def PreScore (pl : NodeNumber) (state : CycleState) (pod : Pod) :
    Option (CycleState × GoStatus) :=
  match pod.name.toList.getLast? with
  | none => none
  | some c =>
      if c.isDigit then
        some (some ⟨((c.toNat : ℤ) - 48)⟩, none)
      else
        some (state, none)

/-! ### Numeric helper lemmas -/

lemma goRound_nonneg_eq (x : ℝ) (n : ℤ) (hx : 0 ≤ x)
    (h1 : (n : ℝ) ≤ x + 1/2) (h2 : x + 1/2 < (n : ℝ) + 1) : goRound x = (n : ℝ) := by
  unfold goRound
  rw [if_pos hx]
  have hfl : ⌊x + 1/2⌋ = n := Int.floor_eq_iff.mpr ⟨h1, h2⟩
  rw [hfl]

lemma goTrunc_nonneg_eq (x : ℝ) (n : ℤ) (hn : 0 ≤ n)
    (h1 : (n : ℝ) ≤ x) (h2 : x < (n : ℝ) + 1) : goTrunc x = n := by
  have hx : 0 ≤ x := le_trans (by exact_mod_cast hn) h1
  unfold goTrunc
  rw [if_pos hx]
  exact Int.floor_eq_iff.mpr ⟨h1, h2⟩

lemma renewScore_neg_one_bounds :
    72.5 ≤ 100 / (1 + Real.exp (-1)) ∧ 100 / (1 + Real.exp (-1)) < 73.5 := by
  have he1 : (2.71 : ℝ) < Real.exp 1 := lt_trans (by norm_num) Real.exp_one_gt_d9
  have he2 : Real.exp 1 < 2.72 := lt_trans Real.exp_one_lt_d9 (by norm_num)
  have hpos : (0 : ℝ) < Real.exp 1 := Real.exp_pos 1
  have hneg : Real.exp (-1 : ℝ) = (Real.exp 1)⁻¹ := Real.exp_neg 1
  have hu_pos : 0 < (Real.exp 1)⁻¹ := inv_pos.mpr hpos
  have hmul : (Real.exp 1)⁻¹ * Real.exp 1 = 1 := inv_mul_cancel₀ (ne_of_gt hpos)
  have hdenpos : 0 < 1 + (Real.exp 1)⁻¹ := by positivity
  rw [hneg]
  constructor
  · rw [le_div_iff hdenpos]
    nlinarith [mul_lt_mul_of_pos_left he1 hu_pos]
  · rw [div_lt_iff hdenpos]
    nlinarith [mul_lt_mul_of_pos_left he2 hu_pos]

lemma goRound_renew_neg_one : goRound (100 / (1 + Real.exp (-1))) = (73 : ℝ) := by
  obtain ⟨h1, h2⟩ := renewScore_neg_one_bounds
  exact goRound_nonneg_eq _ 73 (by linarith) (by push_cast; linarith) (by push_cast; linarith)

/-! ### C3: scoring formula, example value, determinism -/

/-- C3: for every matched record with `PrimaryLoad ≠ 0`, the score equals
`trunc(round(renewScore)*0.5 + (round(batteryCharge)-20)*0.5)` with
`renewScore = 100/(1+e^(-5*(renewableOutput-primaryLoad)/primaryLoad))`;
for the record `{renewableOutput=120, primaryLoad=100, batteryCharge=80}`
the score is exactly 66 (Go's `int64` conversion truncates 66.5 toward
zero), which is within the claimed set {66, 67}; and scoring is
deterministic. -/
theorem score_formula_example_deterministic :
    (∀ ld : LocationData, ld.PrimaryLoad ≠ 0 →
      scoreOf ld = goTrunc (goRound (100 / (1 + Real.exp
          (-5 * (((ld.RenewableOutput : ℝ) - (ld.PrimaryLoad : ℝ)) / (ld.PrimaryLoad : ℝ))))) * 0.5
        + (goRound (ld.BatteryCharge : ℝ) - 20) * 0.5)) ∧
    scoreOf ⟨"t", 80, 120, 100, 0, "aalborg"⟩ = 66 ∧
    (∀ ld₁ ld₂ : LocationData, ld₁ = ld₂ → scoreOf ld₁ = scoreOf ld₂) := by
  refine ⟨fun ld _ => ?_, ?_, fun ld₁ ld₂ h => by rw [h]⟩
  · simp only [scoreOf]
    norm_num
  · simp only [scoreOf]
    have harg : (-0.05 * 100 *
        ((((120 : ℚ) : ℝ) - ((100 : ℚ) : ℝ)) / ((100 : ℚ) : ℝ))) = (-1 : ℝ) := by
      push_cast
      norm_num
    rw [harg, goRound_renew_neg_one]
    have hb : goRound (((80 : ℚ) : ℝ)) = ((80 : ℤ) : ℝ) := by
      apply goRound_nonneg_eq <;> push_cast <;> norm_num
    rw [hb]
    apply goTrunc_nonneg_eq <;> push_cast <;> norm_num

/-- Witness for C3 at the concrete record of the claim. -/
theorem score_formula_example_deterministic_witness :
    scoreOf ⟨"t", 80, 120, 100, 0, "aalborg"⟩ = goTrunc (goRound (100 / (1 + Real.exp
        (-5 * ((((120 : ℚ) : ℝ) - ((100 : ℚ) : ℝ)) / ((100 : ℚ) : ℝ))))) * 0.5
      + (goRound (((80 : ℚ) : ℝ)) - 20) * 0.5) :=
  score_formula_example_deterministic.1 ⟨"t", 80, 120, 100, 0, "aalborg"⟩ (by norm_num)

/-! ### C4: the returned score is not clamped to the host band -/

lemma scoreOf_battery1000 : scoreOf ⟨"t", 1000, 120, 100, 0, "aalborg"⟩ = 526 := by
  simp only [scoreOf]
  have harg : (-0.05 * 100 *
      ((((120 : ℚ) : ℝ) - ((100 : ℚ) : ℝ)) / ((100 : ℚ) : ℝ))) = (-1 : ℝ) := by
    push_cast; norm_num
  rw [harg, goRound_renew_neg_one]
  have hb : goRound (((1000 : ℚ) : ℝ)) = ((1000 : ℤ) : ℝ) := by
    apply goRound_nonneg_eq <;> push_cast <;> norm_num
  rw [hb]
  apply goTrunc_nonneg_eq <;> push_cast <;> norm_num

/-- C4 fails on the code: the combined result is returned to the host with
no clamping. For the record `{renewableOutput=120, primaryLoad=100,
batteryCharge=1000}` the full `Score` path returns 526, far outside the
host's 0–100 band. -/
theorem score_not_clamped_bug :
    scoreOf ⟨"t", 1000, 120, 100, 0, "aalborg"⟩ = 526 ∧
    ¬ scoreOf ⟨"t", 1000, 120, 100, 0, "aalborg"⟩ ≤ 100 ∧
    Score ⟨false⟩ none ⟨"p1"⟩
      (fun _ => .ok [⟨"t", 1000, 120, 100, 0, "aalborg"⟩])
      (.responds "body") [⟨"n1", fun _ => "aalborg"⟩] "n1" = some (526, none) := by
  refine ⟨scoreOf_battery1000, by rw [scoreOf_battery1000]; norm_num, ?_⟩
  simp only [Score, GetData, GetLocationData, goIndexFunc, goSliceGet,
    List.findIdx?_cons, List.findIdx?_nil, scoreArith]
  norm_num [scoreOf_battery1000]

/-! ### C5: primaryLoad = 0 has no defined fallback -/

/-- C5 fails on the code: there is no guard for `PrimaryLoad = 0`. The
float64 division produces NaN for `RenewableOutput = 0` — propagated to an
implementation-defined `int64` conversion (`none`), which also makes the
whole `Score` call undefined — and ±Inf otherwise, where the returned
value varies with the battery charge (80 vs 60 below), so it is not a
fixed deterministic fallback score either. -/
theorem primary_load_zero_bug :
    scoreArith ⟨"t", 80, 0, 0, 0, "aalborg"⟩ = none ∧
    scoreArith ⟨"t", 80, 120, 0, 0, "aalborg"⟩ = some 80 ∧
    scoreArith ⟨"t", 40, 120, 0, 0, "aalborg"⟩ = some 60 ∧
    Score ⟨false⟩ none ⟨"p1"⟩
      (fun _ => .ok [⟨"t", 80, 0, 0, 0, "aalborg"⟩])
      (.responds "body") [⟨"n1", fun _ => "aalborg"⟩] "n1" = none := by
  have h100 : goRound (100 : ℝ) = (100 : ℝ) := by
    have h := goRound_nonneg_eq (100 : ℝ) 100 (by norm_num)
      (by push_cast; norm_num) (by push_cast; norm_num)
    simpa using h
  have h80 : goRound (80 : ℝ) = (80 : ℝ) := by
    have h := goRound_nonneg_eq (80 : ℝ) 80 (by norm_num)
      (by push_cast; norm_num) (by push_cast; norm_num)
    simpa using h
  have h40 : goRound (40 : ℝ) = (40 : ℝ) := by
    have h := goRound_nonneg_eq (40 : ℝ) 40 (by norm_num)
      (by push_cast; norm_num) (by push_cast; norm_num)
    simpa using h
  refine ⟨by simp only [scoreArith]; norm_num, ?_, ?_, ?_⟩
  · simp only [scoreArith]
    norm_num [h100, h80]
    apply goTrunc_nonneg_eq <;> push_cast <;> norm_num
  · simp only [scoreArith]
    norm_num [h100, h40]
    apply goTrunc_nonneg_eq <;> push_cast <;> norm_num
  · simp only [Score, GetData, GetLocationData, goIndexFunc, goSliceGet,
      List.findIdx?_cons, List.findIdx?_nil, scoreArith]
    norm_num

/-! ### C1: fetch failure yields the fallback score with a success status -/

/-- C1: whenever `GetData` fails — transport error, body-read error, or a
malformed payload the decoder rejects — `Score` returns the fixed
fallback score 22 together with the nil (success) status, for every
plugin configuration, cycle state, pod, snapshot and candidate node. -/
theorem score_fetch_failure_fallback (pl : NodeNumber) (state : CycleState)
    (pod : Pod) (unmarshal : String → Except String (List LocationData))
    (nodeList : List NodeInfo) (nodeName : String) (e : String) :
    Score pl state pod unmarshal (.getErr e) nodeList nodeName = some (22, none) ∧
    Score pl state pod unmarshal (.readErr e) nodeList nodeName = some (22, none) ∧
    (∀ body, unmarshal body = .error e →
      Score pl state pod unmarshal (.responds body) nodeList nodeName = some (22, none)) := by
  refine ⟨rfl, rfl, fun body h => ?_⟩
  simp only [Score, GetData, h]

/-- Witness for C1 at a concrete failing decoder. -/
theorem score_fetch_failure_fallback_witness :
    Score ⟨false⟩ none ⟨"p1"⟩ (fun _ => .error "bad json") (.responds "not-json")
      [] "n1" = some (22, none) :=
  (score_fetch_failure_fallback ⟨false⟩ none ⟨"p1"⟩ (fun _ => .error "bad json")
    [] "n1" "bad json").2.2 "not-json" rfl

/-! ### C2: unmatched location crashes instead of returning a fallback -/

/-- C2 fails on the code: `GetLocationData` computes `slices.IndexFunc`
(which yields `-1` when no record matches) and indexes the slice with it
unguarded, so for a node whose `location` label matches no record the
lookup is an out-of-range access (`none`, a run-time panic) and the whole
`Score` call panics rather than returning a fallback score with success. -/
theorem unmatched_location_crash_bug :
    goIndexFunc [(⟨"t", 80, 120, 100, 0, "aalborg"⟩ : LocationData)]
      (fun d => d.Location == "esbjerg") = -1 ∧
    GetLocationData "esbjerg" [⟨"t", 80, 120, 100, 0, "aalborg"⟩] = none ∧
    Score ⟨false⟩ none ⟨"p1"⟩
      (fun _ => .ok [⟨"t", 80, 120, 100, 0, "aalborg"⟩])
      (.responds "body") [⟨"n1", fun _ => "esbjerg"⟩] "n1" = none := by
  refine ⟨?_, ?_, ?_⟩
  · simp [goIndexFunc, List.findIdx?_cons, List.findIdx?_nil]
  · simp [GetLocationData, goIndexFunc, goSliceGet, List.findIdx?_cons, List.findIdx?_nil]
  · simp [Score, GetData, GetLocationData, goIndexFunc, goSliceGet,
      List.findIdx?_cons, List.findIdx?_nil]

/-! ### C6: pod suffix extraction (amended: non-empty names) -/

/-- C6 counterexample: for the empty pod name,
`pod.Name[len(pod.Name)-1:]` slices with a negative bound and panics
(`none`), so PreScore does not return success for that name. -/
theorem prescore_empty_name_panics :
    PreScore ⟨false⟩ none ⟨""⟩ = none := rfl

/-- C6 amended: for every pod whose (non-empty) name has last character
`c`, PreScore returns the nil (success) status; when `c` is a decimal
digit `d` it writes `d` (= `c - '0'`) as the pod suffix feature, and when
it is not, it leaves the cycle state unchanged. Extraction never fails the
cycle for a non-empty name; the empty name instead panics (see
`prescore_empty_name_panics`). -/
theorem prescore_digit_extraction (pl : NodeNumber) (state : CycleState)
    (pod : Pod) (c : Char) (h : pod.name.toList.getLast? = some c) :
    (c.isDigit = true →
      PreScore pl state pod = some (some ⟨((c.toNat : ℤ) - 48)⟩, none)) ∧
    (c.isDigit = false → PreScore pl state pod = some (state, none)) := by
  have h2 : pod.name.data.getLast? = some c := h
  constructor <;> intro hd <;> simp [PreScore, h2, hd]

/-- Witness for C6 (amended) at the pod names "p7" and "px". -/
theorem prescore_digit_extraction_witness :
    PreScore ⟨false⟩ none ⟨"p7"⟩ = some (some ⟨7⟩, none) ∧
    PreScore ⟨false⟩ none ⟨"px"⟩ = some (none, none) := by
  constructor
  · have h := (prescore_digit_extraction ⟨false⟩ none ⟨"p7"⟩ '7' (by decide)).1 (by decide)
    rw [h]
    decide
  · exact (prescore_digit_extraction ⟨false⟩ none ⟨"px"⟩ 'x' (by decide)).2 (by decide)

/-! ### C7: the reverse flag has no effect on scoring -/

/-- C7: two `Score` runs that differ only in the plugin's `reverse` field
return the same score and status, for every cycle state, pod, telemetry
world, snapshot, and candidate node: the flag is decoded but never read
in the scoring path. -/
theorem reverse_flag_no_effect (state : CycleState) (pod : Pod)
    (unmarshal : String → Except String (List LocationData)) (world : FetchWorld)
    (nodeList : List NodeInfo) (nodeName : String) :
    Score ⟨true⟩ state pod unmarshal world nodeList nodeName =
      Score ⟨false⟩ state pod unmarshal world nodeList nodeName := rfl

/-! ### C8: Score does not consume the PreScore feature -/

/-- C8: two `Score` runs with the same telemetry world, snapshot and
candidate node but different pods and different per-cycle PreScore states
return the same score and status: `Score` never reads either argument. -/
theorem prescore_state_not_consumed (pl : NodeNumber)
    (state₁ state₂ : CycleState) (pod₁ pod₂ : Pod)
    (unmarshal : String → Except String (List LocationData)) (world : FetchWorld)
    (nodeList : List NodeInfo) (nodeName : String) :
    Score pl state₁ pod₁ unmarshal world nodeList nodeName =
      Score pl state₂ pod₂ unmarshal world nodeList nodeName := rfl

/-! ### C9: error behaviour of GetData -/

/-- C9: `GetData` returns a non-nil error exactly when the transport
fails, reading the body fails, or the body does not decode as a list of
`LocationData`; otherwise it returns the decoded records with a nil
error. -/
theorem getdata_error_characterization
    (unmarshal : String → Except String (List LocationData)) (world : FetchWorld) :
    ((∃ e, GetData unmarshal world = .error e) ↔
      ((∃ e, world = .getErr e) ∨ (∃ e, world = .readErr e) ∨
        (∃ body e, world = .responds body ∧ unmarshal body = .error e))) ∧
    (∀ body data, world = .responds body → unmarshal body = .ok data →
      GetData unmarshal world = .ok data) := by
  constructor
  · cases world with
    | getErr e => simp [GetData]
    | readErr e => simp [GetData]
    | responds body =>
        cases hu : unmarshal body with
        | error e => simp [GetData, hu]
        | ok data => simp [GetData, hu]
  · rintro body data rfl hu
    simp [GetData, hu]

/-- Witness for C9 with a decoder accepting the body. -/
theorem getdata_error_characterization_witness :
    GetData (fun _ => .ok []) (.responds "[]") = .ok [] :=
  (getdata_error_characterization (fun _ => .ok []) (.responds "[]")).2 "[]" [] rfl rfl

/-! ### C10: the node lookup needs the node to be in the snapshot -/

/-- C10: `Score`'s node lookup — `slices.IndexFunc` over the snapshot
followed by unguarded indexing — is in bounds exactly when some snapshot
node carries the requested name; when none does the computed index is
`-1` and the access is out of range (`none`). -/
theorem node_lookup_requires_presence (nodeList : List NodeInfo) (nodeName : String) :
    ((goSliceGet nodeList (goIndexFunc nodeList (fun n => n.name == nodeName))).isSome
      ↔ ∃ n ∈ nodeList, n.name = nodeName) ∧
    ((∀ n ∈ nodeList, n.name ≠ nodeName) →
      goIndexFunc nodeList (fun n => n.name == nodeName) = -1 ∧
      goSliceGet nodeList (goIndexFunc nodeList (fun n => n.name == nodeName)) = none) := by
  constructor
  · constructor
    · intro hs
      rcases hfi : nodeList.findIdx? (fun n => n.name == nodeName) with _ | i
      · exfalso
        simp only [goSliceGet, goIndexFunc, hfi] at hs
        norm_num at hs
      · obtain ⟨hlt, hp, _⟩ := List.findIdx?_eq_some_iff_getElem.mp hfi
        exact ⟨nodeList[i], List.getElem_mem hlt, by simpa using hp⟩
    · rintro ⟨n, hn, hname⟩
      have hsome : (nodeList.findIdx? (fun n => n.name == nodeName)).isSome := by
        rw [List.findIdx?_isSome]
        exact List.any_eq_true.mpr ⟨n, hn, by simp [hname]⟩
      rcases hfi : nodeList.findIdx? (fun n => n.name == nodeName) with _ | i
      · rw [hfi] at hsome
        simp at hsome
      · have hlt : i < nodeList.length :=
          (List.findIdx?_eq_some_iff_findIdx_eq.mp hfi).1
        simp only [goSliceGet, goIndexFunc, hfi]
        rw [dif_pos ⟨Int.natCast_nonneg i, by simpa using hlt⟩]
        simp
  · intro h
    have hnone : nodeList.findIdx? (fun n => n.name == nodeName) = none := by
      rw [List.findIdx?_eq_none_iff]
      intro x hx
      simpa using h x hx
    refine ⟨by simp [goIndexFunc, hnone], by simp [goSliceGet, goIndexFunc, hnone]⟩

/-- Witness for C10 at a snapshot not containing the requested node. -/
theorem node_lookup_requires_presence_witness :
    goIndexFunc [({ name := "worker-1", labels := fun _ => "" } : NodeInfo)]
      (fun n => n.name == "worker-2") = -1 ∧
    goSliceGet [({ name := "worker-1", labels := fun _ => "" } : NodeInfo)]
      (goIndexFunc [({ name := "worker-1", labels := fun _ => "" } : NodeInfo)]
        (fun n => n.name == "worker-2")) = none :=
  (node_lookup_requires_presence [⟨"worker-1", fun _ => ""⟩] "worker-2").2
    (by
      intro n hn
      rw [List.mem_singleton] at hn
      subst hn
      decide)
